import Mathlib

/-!
Shallow embedding of `accesslog` (src/accesslog/__init__.py): the log
record model, the store's CRUD/query operations, the cooldown evaluator
and the anonymization routines, over an explicit list-of-rows store.

Machine integers do not occur: ids and address values are `Nat`, times
are `Int` (Python ints are unbounded).  External collaborators
(`statement_helper` predicates, the `parse_id` identifier codec,
`IDCollection`, `ipaddress`) are modelled from the spec's description of
their interfaces, as noted on each definition.
-/

namespace AccessLog

/-- A parsed network address as produced by Python's `ip_address`:
an address family (`version`, 4 or 6 for real addresses) and the
integer value of the address.  The `version` field ranges over `Nat`
so that the defensive "unknown IP version" branch of
`anonymize_log_origins` is statable. -/
structure IpAddr where
  version : Nat
  addr : Nat
deriving DecidableEq, Repr

/-- The addresses `ip_address` can actually construct: IPv4 values are
below `2^32`, IPv6 values below `2^128`. -/
def IpAddr.valid (ip : IpAddr) : Prop :=
  (ip.version = 4 ∧ ip.addr < 2 ^ 32) ∨ (ip.version = 6 ∧ ip.addr < 2 ^ 128)

instance (ip : IpAddr) : Decidable ip.valid := by
  unfold IpAddr.valid; infer_instance

/-- `ip_address('127.0.0.1')`, the default `remote_origin` of `LogEntry.__init__`. -/
def loopback : IpAddr := ⟨4, 0x7f000001⟩

/-- Big-endian byte string of a fixed width, as produced by packing an
address value (`k` bytes, most significant first). -/
def natToBeBytes : Nat → Nat → List Nat
  | 0, _ => []
  | k + 1, n => natToBeBytes k (n / 256) ++ [n % 256]

/-- `int.from_bytes(b, 'big')`. -/
def beBytesToNat (b : List Nat) : Nat :=
  b.foldl (fun acc x => acc * 256 + x) 0

/-- `.packed`: the fixed-width big-endian byte form of an address,
4 bytes for IPv4 and 16 bytes for IPv6 (Python's `ipaddress` only has
these two families; non-4 versions in the model pack to 16 bytes, a
branch no reachable row exercises). -/
def IpAddr.packed (ip : IpAddr) : List Nat :=
  if ip.version = 4 then natToBeBytes 4 ip.addr else natToBeBytes 16 ip.addr

/-- `ip_address(bytes)`: a 4-byte string is an IPv4 address, a 16-byte
string an IPv6 address.  (Python raises on other lengths; rows written
by this module always carry a 4- or 16-byte origin.) -/
def ipFromBytes (b : List Nat) : IpAddr :=
  if b.length = 4 then ⟨4, beBytesToNat b⟩ else ⟨6, beBytesToNat b⟩

/-- `ip_address(int)`: an integer below `2^32` is interpreted as an
IPv4 address, anything larger as IPv6. -/
def ipFromInt (n : Nat) : IpAddr :=
  if n < 2 ^ 32 then ⟨4, n⟩ else ⟨6, n⟩

/-- A constructed `LogEntry` (the in-memory record).  Identifiers are
abstract: the external `parse_id` codec maps canonical strings and
16-byte forms bijectively, so the model uses a single `Nat` for both,
with `0` the zero-value sentinel (`parse_id('')`). -/
structure LogEntry where
  id : Nat
  creation_time : Int
  scope : String
  remote_origin : IpAddr
  subject_id : Nat
  object_id : Nat
deriving DecidableEq, Repr

/-- One persisted row of the `access_logs` table; `remote_origin` is
stored packed (`log.remote_origin.packed`), exactly as inserted by
`create_log`. -/
structure Row where
  id : Nat
  creation_time : Int
  scope : String
  remote_origin : List Nat
  subject_id : Nat
  object_id : Nat
deriving DecidableEq, Repr

/-- The persistent table, in insertion order. -/
abbrev Store := List Row

/-- The declared `scope` column bound (`self.scope_length = 16`,
`String(self.scope_length)`). -/
def scope_length : Nat := 16

/-- The two errors this module raises: `ValueError('Log ID collision')`
and `ValueError('Encountered unknown IP version')`. -/
inductive Err where
  | collision
  | unsupportedAddressFamily
deriving DecidableEq, Repr

instance {ε α : Type _} [DecidableEq ε] [DecidableEq α] :
    DecidableEq (Except ε α) := fun a b =>
  match a, b with
  | .error e, .error f =>
    if h : e = f then .isTrue (by rw [h]) else .isFalse (fun hh => h (by cases hh; rfl))
  | .ok x, .ok y =>
    if h : x = y then .isTrue (by rw [h]) else .isFalse (fun hh => h (by cases hh; rfl))
  | .error _, .ok _ => .isFalse (fun hh => Except.noConfusion hh)
  | .ok _, .error _ => .isFalse (fun hh => Except.noConfusion hh)

/-- The filter dictionary as this module ever populates it.  Fields are
the dictionary keys; `none` means the key is absent.  The key
`subject_id` (singular) is the one `cooldown` places in its
subject-side filter; `prepare_logs_search_statement` never consults it
(the spec: "Unrecognized keys are ignored"). -/
structure Filter where
  ids : Option (List Nat) := none
  created : Option Int := none
  created_after : Option Int := none
  created_before : Option Int := none
  scopes : Option (List String) := none
  remote_origins : Option (List IpAddr) := none
  subject_ids : Option (List Nat) := none
  object_ids : Option (List Nat) := none
  subject_id : Option Nat := none

/-- Membership predicate of one filter key: absent key constrains
nothing, a present key is an OR over its value set.  Modelled from the
spec: "Multiple keys combine with logical AND; multiple values under
one key combine with logical OR (membership test)." -/
def optMem [BEq α] (o : Option (List α)) (x : α) : Bool :=
  match o with
  | none => true
  | some l => l.contains x

/-- The WHERE clause built by `prepare_logs_search_statement`, as a row
predicate.  The six condition families are modelled from the spec's
contract for the external `statement_helper` predicates: `id_filter`
(consulting keys `ids`, `subject_ids`, `object_ids`),
`time_cutoff_filter` (keys `created`, `created_after` meaning
`creation_time > cutoff`, `created_before` meaning
`creation_time < cutoff`), `string_equal_filter` (key `scopes`) and
`remote_origin_filter` (key `remote_origins`, comparing the stored
packed bytes).  The stray `subject_id` key is not consulted. -/
def prepare_logs_search_statement (f : Filter) (r : Row) : Bool :=
  optMem f.ids r.id &&
  (match f.created with
   | none => true
   | some t => r.creation_time == t) &&
  (match f.created_after with
   | none => true
   | some t => decide (t < r.creation_time)) &&
  (match f.created_before with
   | none => true
   | some t => decide (r.creation_time < t)) &&
  optMem f.scopes r.scope &&
  (match f.remote_origins with
   | none => true
   | some l => l.any (fun v => r.remote_origin == v.packed)) &&
  optMem f.subject_ids r.subject_id &&
  optMem f.object_ids r.object_id

/-- `count_logs`: number of rows matching the filter. -/
def count_logs (store : Store) (f : Filter := {}) : Nat :=
  (store.filter (prepare_logs_search_statement f)).length

/-- Row order used by the external `sort_statement`, modelled from the
spec: sort by `creation_time` (or by `id` when that sort field is
requested), ties broken by `id`, so the order is total. -/
def rowLe (sort : String) (a b : Row) : Bool :=
  if sort == "id" then
    decide (a.id ≤ b.id)
  else
    decide (a.creation_time < b.creation_time) ||
      (a.creation_time == b.creation_time && decide (a.id ≤ b.id))

/-- Insertion into a sorted row list. -/
def insertRow (sort : String) (x : Row) : List Row → List Row
  | [] => [x]
  | y :: ys => if rowLe sort x y then x :: y :: ys else y :: insertRow sort x ys

/-- Sorting of the result set (modelled from the spec's contract for
`sort_statement`; any stable total sort is observationally equal for
the properties below). -/
def sortRows (sort : String) : List Row → List Row
  | [] => []
  | x :: xs => insertRow sort x (sortRows sort xs)

/-- `paginate_statement`, modelled from the spec: absent `perpage`
returns all rows, otherwise page `page` of size `perpage`. -/
def paginateRows (page : Nat) (perpage : Option Nat) (l : List Row) : List Row :=
  match perpage with
  | none => l
  | some pp => (l.drop (page * pp)).take pp

/-- Materialization of one fetched row back into a `LogEntry`
(`search_logs`'s loop body). -/
def entryOfRow (r : Row) : LogEntry :=
  { id := r.id
    creation_time := r.creation_time
    scope := r.scope
    remote_origin := ipFromBytes r.remote_origin
    subject_id := r.subject_id
    object_id := r.object_id }

/-- `search_logs`: filter, sort, paginate, materialize.  The returned
list stands for the `IDCollection` (insertion-ordered, keyed by id). -/
def search_logs (store : Store) (f : Filter := {}) (sort : String := "")
    (order : String := "") (page : Nat := 0) (perpage : Option Nat := none) :
    List LogEntry :=
  let rows := sortRows sort (store.filter (prepare_logs_search_statement f))
  let rows := if order == "desc" then rows.reverse else rows
  (paginateRows page perpage rows).map entryOfRow

/-- `get_log`: search narrowed to one id, then `IDCollection.get(id)`
(the entry with that id, if any). -/
def get_log (store : Store) (id : Nat) : Option LogEntry :=
  (search_logs store { ids := some [id] }).find? (fun l => l.id == id)

/-- The keyword arguments of `create_log` / `LogEntry.__init__`;
`none` (resp. the sentinel defaults) stands for an omitted argument. -/
structure CreateArgs where
  id : Option Nat := none
  creation_time : Option Int := none
  scope : String := ""
  remote_origin : Option IpAddr := none
  subject_id : Nat := 0
  object_id : Nat := 0

/-- `create_log`'s preset substitution: `if 'remote_origin' not in
kwargs and self.remote_origin: kwargs['remote_origin'] = self.remote_origin`. -/
def applyPreset (preset : Option IpAddr) (a : CreateArgs) : CreateArgs :=
  match a.remote_origin, preset with
  | none, some p => { a with remote_origin := some p }
  | _, _ => a

/-- `LogEntry.__init__`: defaults are a generated id (`gen`, the
external `generate_or_parse_id` on `None`), the current time (`now`,
`time.time()`), and the loopback origin. -/
def LogEntry.init (gen : Nat) (now : Int) (a : CreateArgs) : LogEntry :=
  { id := a.id.getD gen
    creation_time := a.creation_time.getD now
    scope := a.scope
    remote_origin := a.remote_origin.getD loopback
    subject_id := a.subject_id
    object_id := a.object_id }

/-- The inserted row of `create_log`: the constructed entry with the
origin packed. -/
def rowOfEntry (l : LogEntry) : Row :=
  { id := l.id
    creation_time := l.creation_time
    scope := l.scope
    remote_origin := l.remote_origin.packed
    subject_id := l.subject_id
    object_id := l.object_id }

/-- `create_log`: preset substitution, entry construction, preflight
collision check (`count_logs(filter={'ids': log.id_bytes})`), then one
inserted row.  The result pairs the table state after the call with
the outcome: the Python raise happens before the insert, so the error
outcome carries the unchanged store. -/
def create_log (store : Store) (preset : Option IpAddr) (gen : Nat) (now : Int)
    (a : CreateArgs) : Store × Except Err LogEntry :=
  let log := LogEntry.init gen now (applyPreset preset a)
  if 0 < count_logs store { ids := some [log.id] } then
    (store, .error .collision)
  else
    (store ++ [rowOfEntry log], .ok log)

/-- `prune_logs`: delete where `0 != creation_time`, and additionally
`created_before > creation_time` when `created_before` is truthy
(Python: absent `None` and the integer `0` are both falsy, so neither
adds the cutoff condition). -/
def prune_logs (store : Store) (created_before : Option Int := none) : Store :=
  store.filter (fun r =>
    !(r.creation_time != 0 &&
      (match created_before with
       | some t => if t == 0 then true else decide (r.creation_time < t)
       | none => true)))

/-- `delete_log`: delete where `id ==` the given id. -/
def delete_log (store : Store) (id : Nat) : Store :=
  store.filter (fun r => !(r.id == id))

/-- `cooldown`: one wall-clock sample (`now`), preset origin as
fallback, then the two independent counts.  The subject-side filter is
built with the key `subject_id` — singular, exactly as in the source —
which the search statement does not recognize. -/
def cooldown (store : Store) (preset : Option IpAddr) (now : Int)
    (scope : String) (amount : Nat) (period : Int)
    (remote_origin : Option IpAddr := none) (subject_id : Option Nat := none) :
    Bool :=
  let start_time := now - period
  let remote_origin := match remote_origin with
    | none => preset
    | some o => some o
  let byOrigin := match remote_origin with
    | some o =>
        decide (amount ≤ count_logs store
          { scopes := some [scope]
            created_after := some start_time
            remote_origins := some [o] })
    | none => false
  if byOrigin then
    true
  else
    match subject_id with
    | some s =>
        decide (amount ≤ count_logs store
          { scopes := some [scope]
            created_after := some start_time
            subject_id := some s })
    | none => false

/-- `anonymize_id`: replacement id (supplied, else generated `gen`),
then two independent UPDATE passes over `subject_id` and `object_id`;
returns the replacement id. -/
def anonymize_id (store : Store) (gen : Nat) (id : Nat)
    (new_id : Option Nat := none) : Store × Nat :=
  let nw := new_id.getD gen
  let store := store.map (fun r =>
    if r.subject_id == id then { r with subject_id := nw } else r)
  let store := store.map (fun r =>
    if r.object_id == id then { r with object_id := nw } else r)
  (store, nw)

/-- The per-record masking of `anonymize_log_origins`: IPv4 clears the
low 16 bits of the packed value, IPv6 the low 80 bits, anything else
raises; the masked integer goes back through `ip_address(int)`. -/
def anonymizeOrigin (ip : IpAddr) : Except Err IpAddr :=
  if ip.version = 4 then
    .ok (ipFromInt (beBytesToNat ip.packed / 2 ^ 16 * 2 ^ 16))
  else if ip.version = 6 then
    .ok (ipFromInt (beBytesToNat ip.packed / 2 ^ 80 * 2 ^ 80))
  else
    .error .unsupportedAddressFamily

/-- The UPDATE of one anonymized origin: set `remote_origin` to the
new packed bytes on every row whose `id` equals the record's id. -/
def updateOrigin (id : Nat) (packed : List Nat) (store : Store) : Store :=
  store.map (fun r => if r.id == id then { r with remote_origin := packed } else r)

/-- `anonymize_log_origins`: one masking + UPDATE per given record, in
order.  The result pairs the table state after the call with the raised
error, if any: the first unknown address family raises, and the updates
already executed stay, as in the source's sequential loop. -/
def anonymize_log_origins (store : Store) : List LogEntry → Store × Option Err
  | [] => (store, none)
  | log :: rest =>
    match anonymizeOrigin log.remote_origin with
    | .error e => (store, some e)
    | .ok anon => anonymize_log_origins (updateOrigin log.id anon.packed store) rest

/-- The spec's description of which rows survive `prune` ("deletes all
rows with nonzero `creation_time` whose `creation_time` is less than
`created_before` when given, or all rows with nonzero `creation_time`
when omitted"), for comparison with `prune_logs`. -/
def pruneKeepSpec (created_before : Option Int) (r : Row) : Bool :=
  match created_before with
  | some t => !(r.creation_time != 0 && decide (r.creation_time < t))
  | none => !(r.creation_time != 0)

/-- The record the spec's round-trip property predicts `create` then
`get` returns: every field as given, or its documented default — the
generated id, the current time, the preset origin else loopback, and
the zero-value sentinels. -/
def entryOfArgs (preset : Option IpAddr) (gen : Nat) (now : Int)
    (a : CreateArgs) : LogEntry :=
  { id := a.id.getD gen
    creation_time := a.creation_time.getD now
    scope := a.scope
    remote_origin :=
      match a.remote_origin, preset with
      | some o, _ => o
      | none, some p => p
      | none, none => loopback
    subject_id := a.subject_id
    object_id := a.object_id }

/-- A 17-character scope, one past the declared `scope_length` bound. -/
def longScope : String := "abcdefghijklmnopq"

/-- Concrete fixture rows and entries used by the closed theorems below. -/
def wRow : Row :=
  { id := 1, creation_time := 3, scope := "w",
    remote_origin := loopback.packed, subject_id := 0, object_id := 0 }

def subjRow : Row :=
  { id := 1, creation_time := 100, scope := "s",
    remote_origin := loopback.packed, subject_id := 1, object_id := 0 }

def rowCt (id : Nat) (t : Int) : Row :=
  { id := id, creation_time := t, scope := "",
    remote_origin := loopback.packed, subject_id := 0, object_id := 0 }

def v6LowAddr : Nat := 0x8a2e03707334

def v6LowRow : Row :=
  { id := 1, creation_time := 100, scope := "",
    remote_origin := (IpAddr.mk 6 v6LowAddr).packed, subject_id := 0, object_id := 0 }

def v6LowEntry : LogEntry :=
  { id := 1, creation_time := 100, scope := "",
    remote_origin := ⟨6, v6LowAddr⟩, subject_id := 0, object_id := 0 }

def v4Row : Row :=
  { id := 1, creation_time := 100, scope := "",
    remote_origin := (IpAddr.mk 4 0x01020304).packed, subject_id := 0, object_id := 0 }

def v4Entry : LogEntry :=
  { id := 1, creation_time := 100, scope := "",
    remote_origin := ⟨4, 0x01020304⟩, subject_id := 0, object_id := 0 }

def v5Entry : LogEntry :=
  { id := 1, creation_time := 100, scope := "",
    remote_origin := ⟨5, 3⟩, subject_id := 0, object_id := 0 }

def subj5Row : Row :=
  { id := 1, creation_time := 1, scope := "",
    remote_origin := loopback.packed, subject_id := 5, object_id := 0 }

def obj5Row : Row :=
  { id := 2, creation_time := 1, scope := "",
    remote_origin := loopback.packed, subject_id := 0, object_id := 5 }

/-! ## Byte-string lemmas -/

theorem natToBeBytes_length (k n : Nat) : (natToBeBytes k n).length = k := by
  induction k generalizing n with
  | zero => rfl
  | succ k ih => simp [natToBeBytes, ih]

theorem beBytesToNat_append (l : List Nat) (x : Nat) :
    beBytesToNat (l ++ [x]) = beBytesToNat l * 256 + x := by
  simp [beBytesToNat, List.foldl_append]

theorem beBytesToNat_natToBeBytes (k n : Nat) (h : n < 2 ^ (8 * k)) :
    beBytesToNat (natToBeBytes k n) = n := by
  induction k generalizing n with
  | zero =>
    have hn : n = 0 := by simpa using h
    subst hn; rfl
  | succ k ih =>
    have hpow : 2 ^ (8 * (k + 1)) = 2 ^ (8 * k) * 256 := by
      rw [Nat.mul_succ, pow_add]; norm_num
    have hdiv : n / 256 < 2 ^ (8 * k) := by
      rw [Nat.div_lt_iff_lt_mul (by norm_num : 0 < 256)]
      omega
    rw [natToBeBytes, beBytesToNat_append, ih _ hdiv]
    omega

theorem beBytesToNat_packed (ip : IpAddr) (h : ip.valid) :
    beBytesToNat ip.packed = ip.addr := by
  rcases h with ⟨h4, hlt⟩ | ⟨h6, hlt⟩
  · rw [IpAddr.packed, if_pos h4]
    exact beBytesToNat_natToBeBytes 4 _ hlt
  · rw [IpAddr.packed, if_neg (by omega)]
    exact beBytesToNat_natToBeBytes 16 _ hlt

theorem ipFromBytes_packed (ip : IpAddr) (h : ip.valid) :
    ipFromBytes ip.packed = ip := by
  rcases h with ⟨h4, hlt⟩ | ⟨h6, hlt⟩
  · rw [ipFromBytes, if_pos]
    · cases ip
      simp_all [IpAddr.packed, beBytesToNat_natToBeBytes 4 _ hlt]
    · rw [IpAddr.packed, if_pos h4, natToBeBytes_length]
  · rw [ipFromBytes, if_neg]
    · cases ip
      simp_all [IpAddr.packed, beBytesToNat_natToBeBytes 16 _ hlt]
    · rw [IpAddr.packed, if_neg (by omega), natToBeBytes_length]
      omega

/-! ## Filter and count lemmas -/

theorem prepare_ids_singleton (c : Nat) (r : Row) :
    prepare_logs_search_statement { ids := some [c] } r = decide (r.id = c) := by
  simp [prepare_logs_search_statement, optMem]

theorem count_logs_ids_pos (store : Store) (c : Nat) :
    0 < count_logs store { ids := some [c] } ↔ ∃ r ∈ store, r.id = c := by
  unfold count_logs
  rw [List.length_pos, Ne, List.filter_eq_nil_iff]
  push_neg
  simp [prepare_ids_singleton]

/-- C1: a `create_log` whose candidate id (supplied or generated) is already
present fails with the collision error and leaves the store unchanged (no
row inserted); a `create_log` whose candidate id is absent appends exactly
one row and returns the constructed record. -/
theorem create_log_collision_or_insert (store : Store) (preset : Option IpAddr)
    (gen : Nat) (now : Int) (a : CreateArgs) :
    ((∃ r ∈ store, r.id = (LogEntry.init gen now (applyPreset preset a)).id) →
      create_log store preset gen now a = (store, .error .collision)) ∧
    ((∀ r ∈ store, r.id ≠ (LogEntry.init gen now (applyPreset preset a)).id) →
      create_log store preset gen now a =
        (store ++ [rowOfEntry (LogEntry.init gen now (applyPreset preset a))],
          .ok (LogEntry.init gen now (applyPreset preset a)))) := by
  constructor
  · intro h
    simp only [create_log]
    rw [if_pos ((count_logs_ids_pos _ _).mpr h)]
  · intro h
    simp only [create_log]
    rw [if_neg (fun hc => by
      obtain ⟨r, hr, hre⟩ := (count_logs_ids_pos _ _).mp hc
      exact h r hr hre)]

/-- Witness for C1: a colliding and a fresh create against the same
one-row store. -/
theorem create_log_collision_or_insert_witness :
    create_log [wRow] none 1 50 {} = ([wRow], .error .collision) ∧
    create_log [wRow] none 2 50 {} =
      ([wRow, rowOfEntry (LogEntry.init 2 50 (applyPreset none {}))],
        .ok (LogEntry.init 2 50 (applyPreset none {}))) :=
  ⟨(create_log_collision_or_insert [wRow] none 1 50 {}).1 (by decide),
   (create_log_collision_or_insert [wRow] none 2 50 {}).2 (by decide)⟩

/-- C9: absent targets are not errors — `get_log` of a missing id is
`none`, `search_logs` with no matching row is the empty collection,
`count_logs` is zero, and `delete_log` of a missing id leaves the store
unchanged; none of these operations can fail. -/
theorem not_found_is_total (store : Store) (id : Nat) (f : Filter)
    (hid : ∀ r ∈ store, r.id ≠ id)
    (hf : ∀ r ∈ store, prepare_logs_search_statement f r = false) :
    get_log store id = none ∧
    search_logs store f = [] ∧
    count_logs store f = 0 ∧
    delete_log store id = store := by
  have hfe : store.filter (prepare_logs_search_statement f) = [] :=
    List.filter_eq_nil_iff.mpr (fun r hr => by simp [hf r hr])
  refine ⟨?_, ?_, ?_, ?_⟩
  · have hide : store.filter (prepare_logs_search_statement { ids := some [id] }) = [] :=
      List.filter_eq_nil_iff.mpr (fun r hr => by simp [prepare_ids_singleton, hid r hr])
    unfold get_log search_logs
    rw [hide]
    rfl
  · unfold search_logs
    rw [hfe]
    rfl
  · unfold count_logs
    rw [hfe]
    rfl
  · exact List.filter_eq_self.mpr (fun r hr => by simp [hid r hr])

/-- Witness for C9: one-row store, missing id 2, non-matching scope filter. -/
theorem not_found_is_total_witness :
    get_log [wRow] 2 = none ∧
    search_logs [wRow] { scopes := some ["x"] } = [] ∧
    count_logs [wRow] { scopes := some ["x"] } = 0 ∧
    delete_log [wRow] 2 = [wRow] :=
  not_found_is_total [wRow] 2 { scopes := some ["x"] } (by decide) (by decide)

/-- C3 counterexample: `prune_logs` with `created_before = 0` deletes a
row with `creation_time = 5`, although the claim's predicate "nonzero
creation_time strictly less than T" rejects it at T = 0 (5 < 0 is
false), so the claim fails for the given cutoff 0. -/
theorem prune_logs_zero_cutoff_cx :
    prune_logs [rowCt 1 5] (some 0) = [] ∧
    ¬((rowCt 1 5).creation_time ≠ 0 ∧ (rowCt 1 5).creation_time < 0) := by
  decide

/-- C3 (amended): for a given nonzero cutoff `t`, `prune_logs` deletes
exactly the rows with nonzero `creation_time` strictly below `t`; with
no cutoff it deletes exactly the rows with nonzero `creation_time`; and
rows with `creation_time = 0` always survive.  (`created_before = 0` is
falsy in Python and behaves like the omitted argument.) -/
theorem prune_logs_amended (store : Store) (cb : Option Int)
    (h : ∀ t, cb = some t → t ≠ 0) :
    prune_logs store cb = store.filter (pruneKeepSpec cb) ∧
    ∀ r ∈ store, r.creation_time = 0 → r ∈ prune_logs store cb := by
  constructor
  · unfold prune_logs
    apply List.filter_congr
    intro r _
    cases cb with
    | none => simp [pruneKeepSpec]
    | some t =>
      have ht : t ≠ 0 := h t rfl
      simp [pruneKeepSpec, ht]
  · intro r hr h0
    unfold prune_logs
    exact List.mem_filter.mpr ⟨hr, by simp [h0]⟩

/-- Witness for C3 (amended): the spec's prune boundary example, rows
with creation times 0, 1, 2, 3 and cutoff 3. -/
theorem prune_logs_amended_witness :
    prune_logs [rowCt 10 0, rowCt 11 1, rowCt 12 2, rowCt 13 3] (some 3) =
      List.filter (pruneKeepSpec (some 3)) [rowCt 10 0, rowCt 11 1, rowCt 12 2, rowCt 13 3] ∧
    ∀ r ∈ [rowCt 10 0, rowCt 11 1, rowCt 12 2, rowCt 13 3],
      r.creation_time = 0 →
        r ∈ prune_logs [rowCt 10 0, rowCt 11 1, rowCt 12 2, rowCt 13 3] (some 3) :=
  prune_logs_amended [rowCt 10 0, rowCt 11 1, rowCt 12 2, rowCt 13 3] (some 3)
    (by decide)

/-- C10: pruning with `created_before = 0` behaves exactly like pruning
with no argument (the integer 0 is falsy, so no cutoff condition is
added and every nonzero-creation_time row is deleted). -/
theorem prune_logs_zero_eq_omitted (store : Store) :
    prune_logs store (some 0) = prune_logs store none := by
  unfold prune_logs
  apply List.filter_congr
  intro r _
  simp

/-- C2 (code bug): `cooldown` builds its subject-side filter with the
key `subject_id` (singular), which `prepare_logs_search_statement` does
not recognize, so the count ignores the subject entirely: with a single
row whose subject is 1, a cooldown check for the different subject 2
still returns true, while the count the claim (and the spec) prescribe
— rows of that scope and window with subject 2, via the recognized
`subject_ids` key — is zero. -/
theorem cooldown_subject_key_ignored :
    cooldown [subjRow] none 100 "s" 1 60 none (some 2) = true ∧
    count_logs [subjRow]
      { scopes := some ["s"], created_after := some 40, subject_ids := some [2] } = 0 := by
  decide

/-- C8 (code bug): `create_log` performs no truncation or validation of
`scope` against the declared 16-character column bound — a 17-character
scope is persisted unchanged, so the stored scope exceeds
`scope_length`. -/
theorem create_log_scope_exceeds_bound :
    create_log [] none 7 42 { scope := longScope } =
      ([rowOfEntry (LogEntry.init 7 42 { scope := longScope })],
        .ok (LogEntry.init 7 42 { scope := longScope })) ∧
    (rowOfEntry (LogEntry.init 7 42 { scope := longScope })).scope = longScope ∧
    scope_length < (rowOfEntry (LogEntry.init 7 42 { scope := longScope })).scope.length := by
  decide

/-- C7: if any record handed to the origin anonymizer carries an
address that is neither IPv4 nor IPv6, the call fails with the
unsupported-address-family error, surfaced to the caller unchanged. -/
theorem anonymize_log_origins_unknown_family (logs : List LogEntry) :
    ∀ store : Store,
      (∃ l ∈ logs, l.remote_origin.version ≠ 4 ∧ l.remote_origin.version ≠ 6) →
      (anonymize_log_origins store logs).2 = some .unsupportedAddressFamily := by
  induction logs with
  | nil =>
    intro store h
    obtain ⟨l, hl, _⟩ := h
    cases hl
  | cons a rest ih =>
    intro store h
    by_cases h4 : a.remote_origin.version = 4
    · have hA : anonymizeOrigin a.remote_origin =
          .ok (ipFromInt (beBytesToNat a.remote_origin.packed / 2 ^ 16 * 2 ^ 16)) := by
        simp [anonymizeOrigin, h4]
      simp only [anonymize_log_origins, hA]
      apply ih
      obtain ⟨l, hl, hne⟩ := h
      cases hl with
      | head => exact absurd h4 hne.1
      | tail _ hmem => exact ⟨l, hmem, hne⟩
    · by_cases h6 : a.remote_origin.version = 6
      · have hA : anonymizeOrigin a.remote_origin =
            .ok (ipFromInt (beBytesToNat a.remote_origin.packed / 2 ^ 80 * 2 ^ 80)) := by
          simp [anonymizeOrigin, h4, h6]
        simp only [anonymize_log_origins, hA]
        apply ih
        obtain ⟨l, hl, hne⟩ := h
        cases hl with
        | head => exact absurd h6 hne.2
        | tail _ hmem => exact ⟨l, hmem, hne⟩
      · have hA : anonymizeOrigin a.remote_origin = .error .unsupportedAddressFamily := by
          simp [anonymizeOrigin, h4, h6]
        simp only [anonymize_log_origins, hA]

/-- Witness for C7: a well-formed IPv4 record followed by a version-5
record; the loop performs the first update, then raises. -/
theorem anonymize_log_origins_unknown_family_witness :
    (anonymize_log_origins [v4Row] [v4Entry, v5Entry]).2 =
      some .unsupportedAddressFamily :=
  anonymize_log_origins_unknown_family [v4Entry, v5Entry] [v4Row] (by decide)

/-- C6 counterexample: calling `anonymize_id` with the replacement id
equal to the target id (`anonymize_id(5, new_id=5)`) rewrites matching
rows to 5 itself, so a row still has `subject_id == 5` afterwards,
refuting "no row has subject_id == X" as universally stated. -/
theorem anonymize_id_same_replacement_cx :
    (anonymize_id [subj5Row] 9 5 (some 5)).2 = 5 ∧
    ∃ r ∈ (anonymize_id [subj5Row] 9 5 (some 5)).1, r.subject_id = 5 := by
  decide

/-- C6 (amended): `anonymize_id` returns the replacement id (supplied,
else generated), rewrites every row's subject and object fields that
equalled the old id to the replacement (a row matching both is updated
in both passes), deletes and inserts nothing (the row count is
unchanged), and — provided the replacement differs from the old id —
leaves no row with the old id as subject or object. -/
theorem anonymize_id_amended (store : Store) (gen id : Nat) (new_id : Option Nat) :
    (anonymize_id store gen id new_id).2 = new_id.getD gen ∧
    (anonymize_id store gen id new_id).1 = store.map (fun r =>
      { r with
        subject_id := if r.subject_id = id then new_id.getD gen else r.subject_id
        object_id := if r.object_id = id then new_id.getD gen else r.object_id }) ∧
    (anonymize_id store gen id new_id).1.length = store.length ∧
    (new_id.getD gen ≠ id →
      ∀ r ∈ (anonymize_id store gen id new_id).1,
        r.subject_id ≠ id ∧ r.object_id ≠ id) := by
  have hmap : (anonymize_id store gen id new_id).1 = store.map (fun r =>
      { r with
        subject_id := if r.subject_id = id then new_id.getD gen else r.subject_id
        object_id := if r.object_id = id then new_id.getD gen else r.object_id }) := by
    show ((store.map _).map _) = _
    rw [List.map_map]
    apply List.map_congr_left
    intro r _
    by_cases hs : r.subject_id = id <;> by_cases ho : r.object_id = id <;>
      simp [Function.comp, hs, ho]
  refine ⟨rfl, hmap, by rw [hmap, List.length_map], ?_⟩
  intro hnw r hr
  rw [hmap] at hr
  obtain ⟨s, _, rfl⟩ := List.mem_map.mp hr
  constructor
  · by_cases hs : s.subject_id = id <;> simp [hs, hnw]
  · by_cases ho : s.object_id = id <;> simp [ho, hnw]

/-- Witness for C6 (amended): a subject-5 row and an object-5 row,
anonymized with generated replacement 9. -/
theorem anonymize_id_amended_witness :
    (anonymize_id [subj5Row, obj5Row] 9 5 none).2 = 9 ∧
    (anonymize_id [subj5Row, obj5Row] 9 5 none).1.length = 2 ∧
    ({ subj5Row with subject_id := 9 } : Row).subject_id ≠ 5 ∧
    ({ subj5Row with subject_id := 9 } : Row).object_id ≠ 5 := by
  have h := anonymize_id_amended [subj5Row, obj5Row] 9 5 none
  have hrow := h.2.2.2 (by decide) { subj5Row with subject_id := 9 } (by decide)
  exact ⟨h.1, h.2.2.1, hrow.1, hrow.2⟩

/-- C5 counterexample: an IPv6 origin whose top 48 bits are all zero
(`::8a2e:370:7334`) masks to the integer 0, which `ip_address(int)`
reads back as the IPv4 address `0.0.0.0`: the persisted replacement is
its 4-byte packing, not the 16-byte packing of the original address
with its low 80 bits cleared, so the claim's "the persisted replacement
equals the original address with the low 80 bits cleared" fails for
this record. -/
theorem anonymize_origins_v6_family_flip_cx :
    anonymize_log_origins [v6LowRow] [v6LowEntry] =
      ([{ v6LowRow with remote_origin := (IpAddr.mk 4 0).packed }], none) ∧
    (IpAddr.mk 4 0).packed ≠ (IpAddr.mk 6 (v6LowAddr / 2 ^ 80 * 2 ^ 80)).packed := by
  decide

/-- C5 (amended): for one given record with a valid stored origin, the
anonymizer succeeds, updating exactly the rows carrying that record's
id with the packed masked origin; an IPv4 origin is replaced by the
IPv4 address with the low 16 bits cleared, an IPv6 origin whose top 48
bits are not all zero by the IPv6 address with the low 80 bits cleared,
while an IPv6 origin whose top 48 bits are all zero is replaced by the
IPv4 address 0.0.0.0 (the masked integer 0 is below 2^32). -/
theorem anonymize_log_origins_masks (store : Store) (log : LogEntry)
    (h : log.remote_origin.valid) :
    ∃ anon : IpAddr,
      anonymizeOrigin log.remote_origin = .ok anon ∧
      anonymize_log_origins store [log] = (updateOrigin log.id anon.packed store, none) ∧
      (log.remote_origin.version = 4 →
        anon = ⟨4, log.remote_origin.addr / 2 ^ 16 * 2 ^ 16⟩) ∧
      (log.remote_origin.version = 6 → 2 ^ 80 ≤ log.remote_origin.addr →
        anon = ⟨6, log.remote_origin.addr / 2 ^ 80 * 2 ^ 80⟩) ∧
      (log.remote_origin.version = 6 → log.remote_origin.addr < 2 ^ 80 →
        anon = ⟨4, 0⟩) := by
  rcases h with ⟨h4, hlt⟩ | ⟨h6, hlt⟩
  · have hA : anonymizeOrigin log.remote_origin =
        .ok ⟨4, log.remote_origin.addr / 2 ^ 16 * 2 ^ 16⟩ := by
      rw [anonymizeOrigin, if_pos h4, beBytesToNat_packed _ (Or.inl ⟨h4, hlt⟩),
        ipFromInt, if_pos (lt_of_le_of_lt (Nat.div_mul_le_self _ _) hlt)]
    refine ⟨_, hA, ?_, fun _ => rfl, fun hv _ => ?_, fun hv _ => ?_⟩
    · simp only [anonymize_log_origins, hA]
    · exact absurd (h4 ▸ hv) (by norm_num)
    · exact absurd (h4 ▸ hv) (by norm_num)
  · have hne4 : ¬ log.remote_origin.version = 4 := by rw [h6]; norm_num
    have hA : anonymizeOrigin log.remote_origin =
        .ok (ipFromInt (log.remote_origin.addr / 2 ^ 80 * 2 ^ 80)) := by
      rw [anonymizeOrigin, if_neg hne4, if_pos h6,
        beBytesToNat_packed _ (Or.inr ⟨h6, hlt⟩)]
    refine ⟨_, hA, ?_, fun hv => absurd (h6 ▸ hv) (by norm_num), fun _ hge => ?_,
      fun _ hlo => ?_⟩
    · simp only [anonymize_log_origins, hA]
    · have h1 : 1 ≤ log.remote_origin.addr / 2 ^ 80 :=
        (Nat.one_le_div_iff (by positivity)).mpr hge
      have h2 : 2 ^ 80 ≤ log.remote_origin.addr / 2 ^ 80 * 2 ^ 80 := by
        calc (2 : ℕ) ^ 80 = 1 * 2 ^ 80 := (one_mul _).symm
          _ ≤ log.remote_origin.addr / 2 ^ 80 * 2 ^ 80 :=
            Nat.mul_le_mul_right _ h1
      have h3 : ¬ log.remote_origin.addr / 2 ^ 80 * 2 ^ 80 < 2 ^ 32 := by
        apply Nat.not_lt.mpr
        calc (2 : ℕ) ^ 32 ≤ 2 ^ 80 := Nat.pow_le_pow_right (by norm_num) (by norm_num)
          _ ≤ _ := h2
      rw [ipFromInt, if_neg h3]
    · have h0 : log.remote_origin.addr / 2 ^ 80 = 0 := Nat.div_eq_of_lt hlo
      rw [ipFromInt, h0]
      norm_num

/-- Witness for C5 (amended): the spec's IPv4 example, `1.2.3.4`
anonymized to `1.2.0.0`. -/
theorem anonymize_log_origins_masks_witness :
    anonymizeOrigin v4Entry.remote_origin = .ok ⟨4, 0x01020000⟩ ∧
    anonymize_log_origins [v4Row] [v4Entry] =
      (updateOrigin v4Entry.id (IpAddr.mk 4 0x01020000).packed [v4Row], none) := by
  obtain ⟨anon, hA, hrun, h4, _, _⟩ :=
    anonymize_log_origins_masks [v4Row] v4Entry (by decide)
  have hv : anon = ⟨4, 0x01020000⟩ := by
    rw [h4 rfl]
    decide
  rw [hv] at hA hrun
  exact ⟨hA, hrun⟩

/-! ## Round-trip lemmas -/

theorem LogEntry_init_applyPreset (gen : Nat) (now : Int) (preset : Option IpAddr)
    (a : CreateArgs) :
    LogEntry.init gen now (applyPreset preset a) = entryOfArgs preset gen now a := by
  rcases a with ⟨aid, act, asc, aro, asb, aob⟩
  cases aro <;> cases preset <;> rfl

theorem search_logs_default_eq (store : Store) (f : Filter) :
    search_logs store f =
      (sortRows "" (store.filter (prepare_logs_search_statement f))).map entryOfRow := by
  have hdesc : ("" == "desc") = false := by decide
  unfold search_logs
  simp [hdesc, paginateRows]

theorem entryOfRow_rowOfEntry (l : LogEntry) (h : l.remote_origin.valid) :
    entryOfRow (rowOfEntry l) = l := by
  unfold entryOfRow rowOfEntry
  simp [ipFromBytes_packed _ h]

/-- C4: `create` followed by `get` of the created record's id returns a
record whose every field equals the given value, or the documented
default when omitted (generated id, current time, preset-else-loopback
origin, zero-value subject/object sentinels), for any valid supplied
address values and a candidate id not already present. -/
theorem create_get_roundtrip (store : Store) (preset : Option IpAddr)
    (gen : Nat) (now : Int) (a : CreateArgs)
    (hfresh : ∀ r ∈ store, r.id ≠ a.id.getD gen)
    (hvalidro : ∀ o ∈ a.remote_origin, o.valid)
    (hvalidp : ∀ p ∈ preset, p.valid) :
    (create_log store preset gen now a).2 = .ok (entryOfArgs preset gen now a) ∧
    get_log (create_log store preset gen now a).1 (a.id.getD gen) =
      some (entryOfArgs preset gen now a) := by
  have hEq : LogEntry.init gen now (applyPreset preset a) = entryOfArgs preset gen now a :=
    LogEntry_init_applyPreset gen now preset a
  have hid : (entryOfArgs preset gen now a).id = a.id.getD gen := rfl
  have hvalid : (entryOfArgs preset gen now a).remote_origin.valid := by
    rcases haro : a.remote_origin with _ | o
    · rcases hp : preset with _ | p
      · simp only [entryOfArgs, haro, hp]
        exact Or.inl ⟨rfl, by decide⟩
      · simpa only [entryOfArgs, haro, hp] using hvalidp p (by rw [hp]; rfl)
    · simpa only [entryOfArgs, haro] using hvalidro o (by rw [haro]; rfl)
  have hcount : ¬ 0 < count_logs store
      { ids := some [(LogEntry.init gen now (applyPreset preset a)).id] } := by
    intro hc
    obtain ⟨r, hr, hre⟩ := (count_logs_ids_pos _ _).mp hc
    exact hfresh r hr (by rw [hre, hEq]; exact rfl)
  have hcreate : create_log store preset gen now a =
      (store ++ [rowOfEntry (entryOfArgs preset gen now a)],
        .ok (entryOfArgs preset gen now a)) := by
    simp only [create_log]
    rw [if_neg hcount, hEq]
  refine ⟨by rw [hcreate], ?_⟩
  rw [hcreate]
  have hfilter : (store ++ [rowOfEntry (entryOfArgs preset gen now a)]).filter
      (prepare_logs_search_statement { ids := some [a.id.getD gen] }) =
      [rowOfEntry (entryOfArgs preset gen now a)] := by
    rw [List.filter_append]
    have h1 : store.filter
        (prepare_logs_search_statement { ids := some [a.id.getD gen] }) = [] :=
      List.filter_eq_nil_iff.mpr (fun r hr => by
        simp [prepare_ids_singleton, hfresh r hr])
    have h2 : [rowOfEntry (entryOfArgs preset gen now a)].filter
        (prepare_logs_search_statement { ids := some [a.id.getD gen] }) =
        [rowOfEntry (entryOfArgs preset gen now a)] := by
      simp [prepare_ids_singleton, rowOfEntry]
      exact rfl
    rw [h1, h2, List.nil_append]
  unfold get_log
  rw [search_logs_default_eq, hfilter]
  have hsort : sortRows "" [rowOfEntry (entryOfArgs preset gen now a)] =
      [rowOfEntry (entryOfArgs preset gen now a)] := rfl
  rw [hsort, List.map_cons, List.map_nil, entryOfRow_rowOfEntry _ hvalid]
  have hbeq : ((entryOfArgs preset gen now a).id == a.id.getD gen) = true :=
    beq_iff_eq.mpr hid
  simp [List.find?, hbeq]

/-- Witness for C4: empty store, no preset, all arguments omitted. -/
theorem create_get_roundtrip_witness :
    (create_log [] none 7 42 {}).2 = .ok (entryOfArgs none 7 42 {}) ∧
    get_log (create_log [] none 7 42 {}).1 7 = some (entryOfArgs none 7 42 {}) :=
  create_get_roundtrip [] none 7 42 {}
    (by intro r hr; exact absurd hr (List.not_mem_nil r))
    (by intro o ho; cases ho)
    (by intro p hp; cases hp)

end AccessLog
